import Mathlib

/-!
Verification development for a transparent TCP relay (`src/main.rs`).

The program accepts inbound connections on a listen address, dials a fixed
target address for each of them, and copies bytes bidirectionally while
logging byte counts and running a best-effort, per-chunk protocol
classification (HTTP request lines, query-like traffic).

The shallow embedding below models:
- `forward_data` (main.rs lines 86-135) as a pure function over the sequence
  of results the `read` system call delivers for the source stream, together
  with an oracle giving the outcome of each `write_all`/`flush` pair on the
  destination stream; it produces the bytes that reach the destination, the
  emitted log events, the chunks successfully read, and the loop's outcome;
- `handle_connection` (lines 50-84) over a session environment carrying the
  `connect_timeout` result, the two `try_clone` results and the two streams'
  read scripts and write oracles; the two forwarding threads appear as the
  two `forward_data` runs, and the sequential `join`s of the source are
  modelled explicitly (the model records whether the second task was joined);
- the accept loop of `ServiceProxy::start` (lines 30-45) over a finite list
  of accept events (in reality `listener.incoming()` never yields `None`,
  so the loop runs forever; a finite event list is a finite observation
  window of it);
- the exit behaviour of `main` (lines 167-182): `exit(1)` on equal addresses,
  an `Err` return (non-zero process exit) when `TcpListener::bind` fails
  inside `start`, and otherwise the never-terminating accept loop.

Machine bytes are modelled as `Nat` (the `u8` values 0..255); log events
carry the direction label and the payloads the source interpolates into the
log line. Logs of the two concurrent directions are concatenated in the
model trace (first direction first); no claim below depends on the
interleaving order across directions.
-/

/-- An I/O error (`std::io::Error`), identified by an abstract code. -/
structure IOError where
  code : Nat
deriving DecidableEq

/-- Result of one `read` call on the source stream: `ok data` is
`Ok(data.length)` with `data` in the buffer (so `ok []` is the zero-length
end-of-stream read), `err e` is `Err(e)`. -/
inductive ReadResult where
  | ok (data : List Nat)
  | err (e : IOError)
deriving DecidableEq

/-- Outcome of the `write_all`/`flush` pair for one chunk:
`ok` — both succeeded; `writeErr w e` — `write_all` failed with `e` after
`w` bytes of the chunk reached the destination; `flushErr e` — `write_all`
wrote the whole chunk, then `flush` failed with `e`. -/
inductive WriteOutcome where
  | ok
  | writeErr (w : Nat) (e : IOError)
  | flushErr (e : IOError)
deriving DecidableEq

/-- Log events emitted by the program, with the direction label and the
interpolated payloads. -/
inductive LogEvent where
  | bytesCount (direction : String) (n : Nat)
  | hexDump (direction : String) (data : List Nat)
  | asciiDump (direction : String) (s : List Char)
  | httpDetected (direction : String)
  | httpStatusLine (direction : String) (line : List Char)
  | queryDetected (direction : String)
  | readError (direction : String) (e : IOError)
  | connClosed (direction : String)
  | connectFailed (e : IOError)
  | connectedTarget
  | newConnection
  | handlerError (e : IOError)
  | acceptError (e : IOError)
deriving DecidableEq

/-- How one `forward_data` loop ended: `eofClean` — `Ok(0)` read, the loop
broke and returned `Ok(())`; `readFailed` — a read returned `Err`, logged and
propagated; `writeFailed` — `write_all` or `flush` failed, propagated by `?`;
`stalled` — the given read script ran out before end-of-stream, i.e. the loop
is still blocked in `read`. -/
inductive RunOutcome where
  | eofClean
  | readFailed (e : IOError)
  | writeFailed (e : IOError)
  | stalled
deriving DecidableEq

/-- Trace of one `forward_data` run: bytes that reached the destination,
log events emitted, loop outcome, and the non-empty chunks successfully
read from the source. -/
structure ForwardResult where
  written : List Nat
  logs : List LogEvent
  outcome : RunOutcome
  chunks : List (List Nat)
deriving DecidableEq

/-- State inside a multi-byte UTF-8 sequence: the partial scalar value
accumulated so far, how many continuation bytes remain, and the allowed
range (`lo`..`hi`) of the next byte — the range encodes the overlong,
surrogate and above-U+10FFFF restrictions exactly as the standard UTF-8
table (and `std::str::from_utf8`) does. -/
structure Utf8State where
  acc : Nat
  need : Nat
  lo : Nat
  hi : Nat
deriving DecidableEq

/-- Byte-at-a-time UTF-8 validator/decoder: `pending` is `none` between
characters and `some st` inside a multi-byte sequence. Accepts exactly the
byte sequences `std::str::from_utf8` accepts (lead bytes `0xC2..0xDF`,
`0xE0..0xEF`, `0xF0..0xF4` with the standard restricted ranges for the
first continuation byte after `0xE0`, `0xED`, `0xF0` and `0xF4`), and
returns the decoded characters. -/
def utf8DecodeFrom : Option Utf8State → List Nat → Option (List Char)
  | none, [] => some []
  | some _, [] => none
  | none, b :: rest =>
    if b < 0x80 then
      (utf8DecodeFrom none rest).map (fun cs => Char.ofNat b :: cs)
    else if 0xC2 ≤ b ∧ b ≤ 0xDF then
      utf8DecodeFrom (some ⟨b - 0xC0, 1, 0x80, 0xBF⟩) rest
    else if 0xE0 ≤ b ∧ b ≤ 0xEF then
      utf8DecodeFrom
        (some ⟨b - 0xE0, 2, if b = 0xE0 then 0xA0 else 0x80, if b = 0xED then 0x9F else 0xBF⟩)
        rest
    else if 0xF0 ≤ b ∧ b ≤ 0xF4 then
      utf8DecodeFrom
        (some ⟨b - 0xF0, 3, if b = 0xF0 then 0x90 else 0x80, if b = 0xF4 then 0x8F else 0xBF⟩)
        rest
    else none
  | some st, b :: rest =>
    if st.lo ≤ b ∧ b ≤ st.hi then
      match st.need with
      | 0 => none
      | 1 => (utf8DecodeFrom none rest).map (fun cs => Char.ofNat (st.acc * 64 + (b - 0x80)) :: cs)
      | n + 2 => utf8DecodeFrom (some ⟨st.acc * 64 + (b - 0x80), n + 1, 0x80, 0xBF⟩) rest
    else none

/-- Decode a byte sequence as UTF-8, as `std::str::from_utf8` validates it
(rejecting overlong forms, surrogates and values above U+10FFFF), returning
the decoded characters. -/
def utf8Decode (data : List Nat) : Option (List Char) :=
  utf8DecodeFrom none data

/-- Rust `str::starts_with(pat)` on decoded characters: `startsWithR s p`
is true when `p` is a leading segment of `s`. -/
def startsWithR : List Char → List Char → Bool
  | _, [] => true
  | [], _ :: _ => false
  | c :: s, p0 :: p => (c == p0) && startsWithR s p

/-- Strip one trailing carriage return, as Rust `str::lines` does to each
line that ended in a line feed. -/
def dropTrailingCr (l : List Char) : List Char :=
  if l.getLast? = some '\r' then l.dropLast else l

/-- Rust `s.lines().next()`: `none` on the empty string, otherwise the text
before the first line feed, with a trailing carriage return removed only
when a line feed followed it. -/
def linesNext (s : List Char) : Option (List Char) :=
  match s with
  | [] => none
  | _ :: _ =>
    let pre := s.takeWhile (fun c => c != '\n')
    if pre.length = s.length then some pre
    else some (dropTrailingCr pre)

/-- The protocol-detection block of `forward_data` (main.rs lines 112-122):
only when the chunk is valid UTF-8, log the HTTP annotations if the text
starts with `HTTP/`, `GET ` or `POST `, else the query annotation if it
starts with `Q`. -/
def classifyChunk (direction : String) (data : List Nat) : List LogEvent :=
  match utf8Decode data with
  | some s =>
    if startsWithR s ['H', 'T', 'T', 'P', '/'] || startsWithR s ['G', 'E', 'T', ' ']
        || startsWithR s ['P', 'O', 'S', 'T', ' '] then
      LogEvent.httpDetected direction ::
        (match linesNext s with
         | some line => [LogEvent.httpStatusLine direction line]
         | none => [])
    else if startsWithR s ['Q'] then
      [LogEvent.queryDetected direction]
    else []
  | none => []

/-- Rendering of one byte in the debug ASCII dump (main.rs lines 99-108):
printable ASCII (`0x21..=0x7E`) and ASCII whitespace pass through, all
other bytes become `.`. -/
def renderByte (b : Nat) : Char :=
  if (0x21 ≤ b ∧ b ≤ 0x7E) ∨ b = 0x20 ∨ b = 0x09 ∨ b = 0x0A ∨ b = 0x0C ∨ b = 0x0D then
    Char.ofNat b
  else '.'

/-- The log events `forward_data` emits for one successfully read chunk,
in source order: byte count (info), hex dump (debug), ASCII rendering
(debug), then the classification annotations. -/
def perChunkLogs (direction : String) (data : List Nat) : List LogEvent :=
  LogEvent.bytesCount direction data.length ::
    LogEvent.hexDump direction data ::
      LogEvent.asciiDump direction (data.map renderByte) ::
        classifyChunk direction data

/-- The buffer size of `forward_data` (main.rs line 87): each `read` is
given an 8192-byte buffer. -/
def BUFFER_SIZE : Nat := 8192

/-- Shallow embedding of `forward_data` (main.rs lines 86-135) over the
source's read script and the destination's write oracle (`writeAt i` is the
outcome of the `write_all`/`flush` pair for the `i`-th chunk). A read of
`Ok(0)` breaks the loop, logs the closed-connection line and ends cleanly;
a read error is logged and propagated; for a non-empty chunk the per-chunk
logs are emitted, then the chunk is written and flushed — a write or flush
failure is propagated by `?` with whatever part of the chunk was written. -/
def forward_data (direction : String) (writeAt : Nat → WriteOutcome) :
    List ReadResult → ForwardResult
  | [] => { written := [], logs := [], outcome := RunOutcome.stalled, chunks := [] }
  | ReadResult.err e :: _ =>
    { written := [], logs := [LogEvent.readError direction e],
      outcome := RunOutcome.readFailed e, chunks := [] }
  | ReadResult.ok [] :: _ =>
    { written := [], logs := [LogEvent.connClosed direction],
      outcome := RunOutcome.eofClean, chunks := [] }
  | ReadResult.ok (b :: bs) :: rest =>
    match writeAt 0 with
    | WriteOutcome.ok =>
      let r := forward_data direction (fun n => writeAt (n + 1)) rest
      { written := (b :: bs) ++ r.written,
        logs := perChunkLogs direction (b :: bs) ++ r.logs,
        outcome := r.outcome,
        chunks := (b :: bs) :: r.chunks }
    | WriteOutcome.writeErr w e =>
      { written := (b :: bs).take w, logs := perChunkLogs direction (b :: bs),
        outcome := RunOutcome.writeFailed e, chunks := [b :: bs] }
    | WriteOutcome.flushErr e =>
      { written := b :: bs, logs := perChunkLogs direction (b :: bs),
        outcome := RunOutcome.writeFailed e, chunks := [b :: bs] }

/-- The UTF-8 bytes of an ASCII string (for encoding the samples of the
source's heuristics; every character used is below 0x80, where the UTF-8
encoding is the code point itself). -/
def asciiBytes (s : String) : List Nat :=
  s.toList.map Char.toNat

/-- Environment of one relay session as seen by `handle_connection`
(main.rs lines 50-84): the result of `TcpStream::connect_timeout` to the
target, the results of the two `try_clone` calls, the read scripts the two
streams will deliver, and the write oracles of the two destinations. -/
structure SessionEnv where
  connect : Except IOError Unit
  cloneClient : Except IOError Unit
  cloneTarget : Except IOError Unit
  clientReads : List ReadResult
  targetReads : List ReadResult
  writeTarget : Nat → WriteOutcome
  writeClient : Nat → WriteOutcome

/-- Return value of `handle_connection` as the process observes it:
`ok` — returned `Ok(())`; `fail e` — returned `Err(e)`; `hang` — a `join`
it is blocked on never completes (a forwarding loop never terminated). -/
inductive HandlerResult where
  | ok
  | fail (e : IOError)
  | hang
deriving DecidableEq

/-- The `io::Result` a forwarding thread hands to `join`, derived from how
its `forward_data` loop ended (`hang` when the loop never ends). -/
def runToResult : RunOutcome → HandlerResult
  | RunOutcome.eofClean => HandlerResult.ok
  | RunOutcome.readFailed e => HandlerResult.fail e
  | RunOutcome.writeFailed e => HandlerResult.fail e
  | RunOutcome.stalled => HandlerResult.hang

/-- Trace of one `handle_connection` call: its result, the log events of the
session (handler-level logs first, then the two directions' logs in task
order — the real interleaving across the two concurrent tasks is not
modelled, and no theorem below depends on it), how many forwarding threads
were spawned, whether the second `join` was reached and completed, the bytes
each task wrote to its destination over the task's lifetime, and the chunks
each task read from its source. -/
structure HandlerOutcome where
  result : HandlerResult
  logs : List LogEvent
  tasksSpawned : Nat
  joinedSecond : Bool
  toTarget : List Nat
  toClient : List Nat
  fromClient : List (List Nat)
  fromTarget : List (List Nat)

/-- Shallow embedding of `handle_connection` (main.rs lines 50-84): on
connect failure, log it and return the error before touching the client
stream; propagate a `try_clone` failure by `?`; otherwise spawn the two
forwarding tasks and join them sequentially — `handle1.join().unwrap()?`
first, so a failure of the client-to-target task returns before the second
`join`, and only when the first task ended cleanly is the second task
joined and its result returned. -/
def handle_connection (env : SessionEnv) : HandlerOutcome :=
  match env.connect with
  | Except.error e =>
    { result := HandlerResult.fail e, logs := [LogEvent.connectFailed e],
      tasksSpawned := 0, joinedSecond := false,
      toTarget := [], toClient := [], fromClient := [], fromTarget := [] }
  | Except.ok _ =>
    match env.cloneClient with
    | Except.error e =>
      { result := HandlerResult.fail e, logs := [LogEvent.connectedTarget],
        tasksSpawned := 0, joinedSecond := false,
        toTarget := [], toClient := [], fromClient := [], fromTarget := [] }
    | Except.ok _ =>
      match env.cloneTarget with
      | Except.error e =>
        { result := HandlerResult.fail e, logs := [LogEvent.connectedTarget],
          tasksSpawned := 0, joinedSecond := false,
          toTarget := [], toClient := [], fromClient := [], fromTarget := [] }
      | Except.ok _ =>
        let r1 := forward_data "Client -> Target" env.writeTarget env.clientReads
        let r2 := forward_data "Target -> Client" env.writeClient env.targetReads
        let logs := LogEvent.connectedTarget :: (r1.logs ++ r2.logs)
        match runToResult r1.outcome with
        | HandlerResult.fail e =>
          { result := HandlerResult.fail e, logs := logs, tasksSpawned := 2,
            joinedSecond := false, toTarget := r1.written, toClient := r2.written,
            fromClient := r1.chunks, fromTarget := r2.chunks }
        | HandlerResult.hang =>
          { result := HandlerResult.hang, logs := logs, tasksSpawned := 2,
            joinedSecond := false, toTarget := r1.written, toClient := r2.written,
            fromClient := r1.chunks, fromTarget := r2.chunks }
        | HandlerResult.ok =>
          match runToResult r2.outcome with
          | HandlerResult.hang =>
            { result := HandlerResult.hang, logs := logs, tasksSpawned := 2,
              joinedSecond := false, toTarget := r1.written, toClient := r2.written,
              fromClient := r1.chunks, fromTarget := r2.chunks }
          | r =>
            { result := r, logs := logs, tasksSpawned := 2,
              joinedSecond := true, toTarget := r1.written, toClient := r2.written,
              fromClient := r1.chunks, fromTarget := r2.chunks }

/-- One event the accept loop of `ServiceProxy::start` sees: a successfully
accepted inbound connection, whose session then unfolds as described by its
environment, or an accept error. -/
inductive AcceptEvent where
  | accepted (env : SessionEnv)
  | acceptFailed (e : IOError)

/-- Trace of a finite observation window of the accept loop: the log events
in loop order (each spawned session's logs inlined at its event — the real
sessions run on their own threads) and the number of sessions spawned. -/
structure StartTrace where
  logs : List LogEvent
  sessionsSpawned : Nat

/-- Shallow embedding of the `for stream in listener.incoming()` loop of
`ServiceProxy::start` (main.rs lines 30-45), over a finite window of accept
events: an accepted connection is logged and handed to `handle_connection`
on a fresh thread whose closure logs a handler error; an accept error is
logged; in both cases the loop continues with the next event. -/
def start_loop : List AcceptEvent → StartTrace
  | [] => { logs := [], sessionsSpawned := 0 }
  | AcceptEvent.accepted env :: rest =>
    let h := handle_connection env
    let errLog :=
      match h.result with
      | HandlerResult.fail e => [LogEvent.handlerError e]
      | _ => []
    let r := start_loop rest
    { logs := LogEvent.newConnection :: (h.logs ++ errLog) ++ r.logs,
      sessionsSpawned := r.sessionsSpawned + 1 }
  | AcceptEvent.acceptFailed e :: rest =>
    let r := start_loop rest
    { logs := LogEvent.acceptError e :: r.logs,
      sessionsSpawned := r.sessionsSpawned }

/-- A socket address (`std::net::SocketAddr`): host and port, compared
structurally as the source compares `listen_addr == target_addr`. -/
structure SockAddr where
  host : Nat
  port : Nat
deriving DecidableEq

/-- How the whole process ends: a non-zero exit (either `exit(1)` or `main`
returning `Err`, which the Rust runtime turns into exit code 1), or running
until killed. -/
inductive ProcessOutcome where
  | exitNonZero
  | runsUntilKilled
deriving DecidableEq

/-- Shallow embedding of the exit behaviour of `main` (main.rs lines
167-182) together with `ServiceProxy::start` (lines 22-47): if the two
prompted addresses are equal, `exit(1)`; otherwise `start` runs, and a
`TcpListener::bind` failure propagates by `?` through `start` to `main`,
which returns `Err` — a non-zero process exit; on bind success the
`for stream in listener.incoming()` loop never terminates (the iterator
never yields `None`, so the `Ok(())` at line 46 is unreachable) and the
process runs until killed. -/
def main_run (listen_addr target_addr : SockAddr)
    (bindResult : Except IOError Unit) : ProcessOutcome :=
  if listen_addr = target_addr then ProcessOutcome.exitNonZero
  else
    match bindResult with
    | Except.error _ => ProcessOutcome.exitNonZero
    | Except.ok _ => ProcessOutcome.runsUntilKilled

/-- Kernel-level model of the `read` calls `forward_data` makes: the source
stream holds `pending` bytes before end-of-stream; each `read` into a buffer
of `bufSize` bytes returns at least one and at most
`min (pending remaining) bufSize` bytes, the exact amount `k+1` picked by
the OS schedule entry `k`; `osChunks` lists the chunks the successive reads
return (ending when the data is exhausted or the observation window — the
schedule — ends). -/
def osChunks (bufSize : Nat) : List Nat → List Nat → List (List Nat)
  | [], _ => []
  | _ :: _, [] => []
  | k :: ks, b :: bs =>
    let t := min (min (k + 1) (b :: bs).length) bufSize
    (b :: bs).take t :: osChunks bufSize ks ((b :: bs).drop t)

/-- Predicate picking out the classification annotations among the log
events (HTTP detected, HTTP status line, query detected). -/
def isClassLog : LogEvent → Bool
  | LogEvent.httpDetected _ => true
  | LogEvent.httpStatusLine _ _ => true
  | LogEvent.queryDetected _ => true
  | _ => false

/-- A session whose outbound connect and clones succeed, whose
client-to-target direction fails on its first read with error 7, and whose
target-to-client direction ends at once with a clean end-of-stream. -/
def envC2 : SessionEnv :=
  { connect := Except.ok (), cloneClient := Except.ok (), cloneTarget := Except.ok (),
    clientReads := [ReadResult.err ⟨7⟩], targetReads := [ReadResult.ok []],
    writeTarget := fun _ => WriteOutcome.ok, writeClient := fun _ => WriteOutcome.ok }

/-- A session whose outbound connect fails with error 111 (connection
refused). -/
def envC6 : SessionEnv :=
  { connect := Except.error ⟨111⟩, cloneClient := Except.ok (), cloneTarget := Except.ok (),
    clientReads := [], targetReads := [],
    writeTarget := fun _ => WriteOutcome.ok, writeClient := fun _ => WriteOutcome.ok }

/-- A session whose outbound connect fails with error 110 while the two
streams would have had data to deliver. -/
def envC10 : SessionEnv :=
  { connect := Except.error ⟨110⟩, cloneClient := Except.ok (), cloneTarget := Except.ok (),
    clientReads := [ReadResult.ok [1]], targetReads := [ReadResult.ok [2]],
    writeTarget := fun _ => WriteOutcome.ok, writeClient := fun _ => WriteOutcome.ok }

/-- Closed form of a clean `forward_data` run: when the source delivers
non-empty chunks followed by end-of-stream (and possibly further events the
loop never reaches) and all writes succeed, the run writes the
concatenation of the chunks, logs each chunk's lines followed by the
closed-connection line, ends cleanly, and reads exactly those chunks. -/
theorem forward_data_clean (dir : String) (chunks : List (List Nat)) (tail : List ReadResult)
    (h : ∀ c ∈ chunks, c ≠ []) :
    forward_data dir (fun _ => WriteOutcome.ok)
        (chunks.map ReadResult.ok ++ ReadResult.ok [] :: tail) =
      { written := chunks.flatten,
        logs := (chunks.map (perChunkLogs dir)).flatten ++ [LogEvent.connClosed dir],
        outcome := RunOutcome.eofClean,
        chunks := chunks } := by
  induction chunks with
  | nil => simp [forward_data]
  | cons c cs ih =>
    have hc : c ≠ [] := h c (by simp)
    obtain ⟨b, bs, rfl⟩ := List.exists_cons_of_ne_nil hc
    simp [forward_data, ih (fun c hmem => h c (by simp [hmem]))]

/-- The accept loop handles every event of a window: the number of spawned
sessions over a concatenation of windows is the sum over the parts. -/
theorem start_loop_append (l1 l2 : List AcceptEvent) :
    (start_loop (l1 ++ l2)).sessionsSpawned =
      (start_loop l1).sessionsSpawned + (start_loop l2).sessionsSpawned := by
  induction l1 with
  | nil => simp [start_loop]
  | cons ev rest ih =>
    cases ev with
    | accepted env => simp [start_loop, ih]; omega
    | acceptFailed e => simp [start_loop, ih]

/-- A byte sequence starting with `Q` (0x51) is valid UTF-8 exactly when its
tail is, and then decodes to `Q` followed by the tail's decoding. -/
theorem utf8Decode_q (rest : List Nat) (cs : List Char) (hvalid : utf8Decode rest = some cs) :
    utf8Decode (81 :: rest) = some ('Q' :: cs) := by
  unfold utf8Decode at hvalid ⊢
  rw [show utf8DecodeFrom none (81 :: rest)
      = (utf8DecodeFrom none rest).map (fun cs => Char.ofNat 81 :: cs) from rfl, hvalid]
  rfl

/-- On a non-empty string, Rust `lines().next()` always yields a line. -/
theorem linesNext_cons (c : Char) (s : List Char) : ∃ l, linesNext (c :: s) = some l := by
  by_cases h : ((c :: s).takeWhile (fun c => c != '\n')).length = (c :: s).length
  · exact ⟨(c :: s).takeWhile (fun c => c != '\n'), by simp only [linesNext, if_pos h]⟩
  · exact ⟨dropTrailingCr ((c :: s).takeWhile (fun c => c != '\n')),
      by simp only [linesNext, if_neg h]⟩

/-- Every chunk a `read` into the 8192-byte buffer can return is non-empty
and at most `BUFFER_SIZE` bytes long. -/
theorem osChunks_bounds (ks : List Nat) (p : List Nat) :
    ∀ c ∈ osChunks BUFFER_SIZE ks p, c ≠ [] ∧ c.length ≤ BUFFER_SIZE := by
  induction ks generalizing p with
  | nil => simp [osChunks]
  | cons k ks ih =>
    cases p with
    | nil => simp [osChunks]
    | cons b bs =>
      intro c hc
      simp only [osChunks, List.mem_cons] at hc
      rcases hc with rfl | hc
      · constructor
        · have hlen : (List.take (min (min (k + 1) (b :: bs).length) BUFFER_SIZE)
              (b :: bs)).length = min (min (min (k + 1) (b :: bs).length) BUFFER_SIZE)
              (b :: bs).length := List.length_take _ _
          intro hnil
          rw [hnil] at hlen
          simp [BUFFER_SIZE] at hlen
          omega
        · calc (List.take (min (min (k + 1) (b :: bs).length) BUFFER_SIZE) (b :: bs)).length
              ≤ min (min (k + 1) (b :: bs).length) BUFFER_SIZE := List.length_take_le _ _
            _ ≤ BUFFER_SIZE := min_le_right _ _
      · exact ih _ c hc

/-- Claim C1: byte fidelity of one direction — for every finite sequence of
non-empty chunks that `forward_data` successfully reads from its source
before end-of-stream, the bytes written to the destination are exactly the
concatenation of those chunks, in order and with the same total length, and
the direction ends cleanly; classification only adds log lines and never
alters the forwarded bytes. -/
theorem claim_C1_byte_fidelity (dir : String) (chunks : List (List Nat))
    (h : ∀ c ∈ chunks, c ≠ []) :
    (forward_data dir (fun _ => WriteOutcome.ok)
        (chunks.map ReadResult.ok ++ [ReadResult.ok []])).written = chunks.flatten ∧
    (forward_data dir (fun _ => WriteOutcome.ok)
        (chunks.map ReadResult.ok ++ [ReadResult.ok []])).chunks = chunks ∧
    (forward_data dir (fun _ => WriteOutcome.ok)
        (chunks.map ReadResult.ok ++ [ReadResult.ok []])).outcome = RunOutcome.eofClean := by
  rw [forward_data_clean dir chunks [] h]
  exact ⟨rfl, rfl, rfl⟩

/-- Witness for claim C1 at the concrete chunk sequence `[[72], [84, 84]]`. -/
theorem claim_C1_witness :
    (forward_data "Client -> Target" (fun _ => WriteOutcome.ok)
        ([[72], [84, 84]].map ReadResult.ok ++ [ReadResult.ok []])).written = [72, 84, 84] := by
  have h := claim_C1_byte_fidelity "Client -> Target" [[72], [84, 84]] (by decide)
  simpa using h.1

/-- Claim C3: termination on end-of-stream — once a read returns zero bytes,
`forward_data` ends cleanly for that direction, and neither the events after
the end-of-stream read nor anything else changes its result: no further
reads are consumed and nothing further is written. -/
theorem claim_C3_eof (dir : String) (chunks : List (List Nat))
    (post : List ReadResult) (h : ∀ c ∈ chunks, c ≠ []) :
    (forward_data dir (fun _ => WriteOutcome.ok)
        (chunks.map ReadResult.ok ++ ReadResult.ok [] :: post)).outcome = RunOutcome.eofClean ∧
    (forward_data dir (fun _ => WriteOutcome.ok)
        (chunks.map ReadResult.ok ++ ReadResult.ok [] :: post)).written = chunks.flatten ∧
    forward_data dir (fun _ => WriteOutcome.ok)
        (chunks.map ReadResult.ok ++ ReadResult.ok [] :: post) =
      forward_data dir (fun _ => WriteOutcome.ok)
        (chunks.map ReadResult.ok ++ [ReadResult.ok []]) := by
  rw [forward_data_clean dir chunks post h, forward_data_clean dir chunks [] h]
  simp

/-- Witness for claim C3: one chunk, then end-of-stream, then an extra event
that is never read. -/
theorem claim_C3_witness :
    (forward_data "Target -> Client" (fun _ => WriteOutcome.ok)
        ([[81]].map ReadResult.ok ++ ReadResult.ok [] :: [ReadResult.ok [9]])).outcome
      = RunOutcome.eofClean :=
  (claim_C3_eof "Target -> Client" [[81]] [ReadResult.ok [9]] (by decide)).1

/-- Claim C2 (amended): after establishing the outbound connection and
spawning the two forwarding tasks, `handle_connection` joins the
client-to-target task first; if that task failed it propagates its error
immediately without waiting for the target-to-client task; only when the
first task ended cleanly does it wait for the second and return its result;
it returns success exactly when both directions end cleanly. -/
theorem claim_C2_amended (env : SessionEnv)
    (hc : env.connect = Except.ok ()) (h1 : env.cloneClient = Except.ok ())
    (h2 : env.cloneTarget = Except.ok ()) :
    ((handle_connection env).result = HandlerResult.ok ↔
      (forward_data "Client -> Target" env.writeTarget env.clientReads).outcome
          = RunOutcome.eofClean ∧
      (forward_data "Target -> Client" env.writeClient env.targetReads).outcome
          = RunOutcome.eofClean) ∧
    (∀ e, runToResult (forward_data "Client -> Target" env.writeTarget env.clientReads).outcome
          = HandlerResult.fail e →
      (handle_connection env).result = HandlerResult.fail e ∧
      (handle_connection env).joinedSecond = false) ∧
    ((forward_data "Client -> Target" env.writeTarget env.clientReads).outcome
          = RunOutcome.eofClean →
      (forward_data "Target -> Client" env.writeClient env.targetReads).outcome
          ≠ RunOutcome.stalled →
      (handle_connection env).joinedSecond = true ∧
      (handle_connection env).result =
        runToResult (forward_data "Target -> Client" env.writeClient env.targetReads).outcome) := by
  unfold handle_connection
  rw [hc, h1, h2]
  cases hout1 : (forward_data "Client -> Target" env.writeTarget env.clientReads).outcome <;>
    cases hout2 : (forward_data "Target -> Client" env.writeClient env.targetReads).outcome <;>
      simp [runToResult, hout1, hout2]

/-- Counterexample to claim C2 as stated: in the session `envC2` both
forwarding tasks complete (the first with a read error, the second cleanly),
yet `handle_connection` returns the first task's error without having joined
the second task — it does not block until both tasks complete. -/
theorem claim_C2_counterexample :
    (handle_connection envC2).result = HandlerResult.fail ⟨7⟩ ∧
    (forward_data "Client -> Target" envC2.writeTarget envC2.clientReads).outcome
        = RunOutcome.readFailed ⟨7⟩ ∧
    (forward_data "Target -> Client" envC2.writeClient envC2.targetReads).outcome
        = RunOutcome.eofClean ∧
    (handle_connection envC2).joinedSecond = false :=
  ⟨rfl, rfl, rfl, rfl⟩

/-- Witness for the amended claim C2 at the concrete session `envC2`. -/
theorem claim_C2_witness :
    envC2.connect = Except.ok () ∧
    (handle_connection envC2).result = HandlerResult.fail ⟨7⟩ := by
  refine ⟨rfl, ?_⟩
  have h := claim_C2_amended envC2 rfl rfl rfl
  exact (h.2.1 ⟨7⟩ rfl).1

/-- Claim C6: when the outbound connect fails, `handle_connection` logs the
failure and returns that error, nothing is written to either stream, no
forwarding task is spawned, and the accept loop goes on processing every
later event — a failing session never terminates the loop. -/
theorem claim_C6_connect_failure (env : SessionEnv) (e : IOError)
    (hc : env.connect = Except.error e) :
    (handle_connection env).result = HandlerResult.fail e ∧
    LogEvent.connectFailed e ∈ (handle_connection env).logs ∧
    (handle_connection env).toClient = [] ∧
    (handle_connection env).toTarget = [] ∧
    (handle_connection env).tasksSpawned = 0 ∧
    ∀ pre post,
      (start_loop (pre ++ AcceptEvent.accepted env :: post)).sessionsSpawned =
        (start_loop pre).sessionsSpawned + 1 + (start_loop post).sessionsSpawned := by
  refine ⟨by simp [handle_connection, hc], by simp [handle_connection, hc],
    by simp [handle_connection, hc], by simp [handle_connection, hc],
    by simp [handle_connection, hc], ?_⟩
  intro pre post
  have h : pre ++ AcceptEvent.accepted env :: post
      = pre ++ ([AcceptEvent.accepted env] ++ post) := rfl
  rw [h, start_loop_append, start_loop_append]
  simp [start_loop]
  omega

/-- Witness for claim C6 at the concrete session `envC6`: the handler
returns the connect error and the loop still spawns both surrounding
sessions of a three-event window. -/
theorem claim_C6_witness :
    envC6.connect = Except.error ⟨111⟩ ∧
    (handle_connection envC6).result = HandlerResult.fail ⟨111⟩ ∧
    (start_loop ([AcceptEvent.accepted envC6] ++ AcceptEvent.accepted envC6
        :: [AcceptEvent.acceptFailed ⟨5⟩])).sessionsSpawned = 2 := by
  have h := claim_C6_connect_failure envC6 ⟨111⟩ rfl
  refine ⟨rfl, h.1, ?_⟩
  have h2 := h.2.2.2.2.2 [AcceptEvent.accepted envC6] [AcceptEvent.acceptFailed ⟨5⟩]
  rw [h2]
  rfl

/-- Claim C10: atomicity of session setup — when the outbound connect
fails, `handle_connection` returns exactly the connect error, nothing is
read from or written to the inbound client stream, and no forwarding task
is spawned. -/
theorem claim_C10_atomic_setup (env : SessionEnv) (e : IOError)
    (hc : env.connect = Except.error e) :
    (handle_connection env).result = HandlerResult.fail e ∧
    (handle_connection env).fromClient = [] ∧
    (handle_connection env).toClient = [] ∧
    (handle_connection env).tasksSpawned = 0 := by
  simp [handle_connection, hc]

/-- Witness for claim C10 at the concrete session `envC10`. -/
theorem claim_C10_witness :
    envC10.connect = Except.error ⟨110⟩ ∧
    (handle_connection envC10).result = HandlerResult.fail ⟨110⟩ ∧
    (handle_connection envC10).fromClient = [] := by
  have h := claim_C10_atomic_setup envC10 ⟨110⟩ rfl
  exact ⟨rfl, h.1, h.2.1⟩

/-- Claim C7 (amended): the process exits with a non-zero status exactly
when the configuration precondition is violated (listen address equals
target address) or binding the listen address fails; in every other case it
runs until killed. -/
theorem claim_C7_amended (l t : SockAddr) (b : Except IOError Unit) :
    main_run l t b = ProcessOutcome.exitNonZero ↔ (l = t ∨ ∃ e, b = Except.error e) := by
  unfold main_run
  by_cases h : l = t <;> cases b <;> simp [h]

/-- Counterexample to claim C7 as stated: with distinct listen and target
addresses but a failing bind, the process still exits with a non-zero
status, so the configuration violation is not the only non-zero exit. -/
theorem claim_C7_counterexample :
    main_run ⟨0, 1⟩ ⟨0, 2⟩ (Except.error ⟨98⟩) = ProcessOutcome.exitNonZero ∧
    (⟨0, 1⟩ : SockAddr) ≠ ⟨0, 2⟩ := by
  constructor
  · rfl
  · decide

/-- Witness for the amended claim C7: equal addresses exit non-zero, and
distinct addresses with a successful bind run until killed. -/
theorem claim_C7_witness :
    main_run ⟨0, 1⟩ ⟨0, 1⟩ (Except.ok ()) = ProcessOutcome.exitNonZero ∧
    main_run ⟨0, 1⟩ ⟨0, 2⟩ (Except.ok ()) = ProcessOutcome.runsUntilKilled :=
  ⟨(claim_C7_amended ⟨0, 1⟩ ⟨0, 1⟩ (Except.ok ())).2 (Or.inl rfl), rfl⟩

/-- Claim C8: chunk-size limit — `forward_data` reads into an 8192-byte
buffer, so whatever the stream content and the OS read scheduling, every
chunk a successful read returns is at most `BUFFER_SIZE` = 8192 bytes. -/
theorem claim_C8_chunk_limit (dir : String) (ks pending : List Nat) :
    BUFFER_SIZE = 8192 ∧
    ∀ c ∈ (forward_data dir (fun _ => WriteOutcome.ok)
        ((osChunks BUFFER_SIZE ks pending).map ReadResult.ok ++ [ReadResult.ok []])).chunks,
      c.length ≤ BUFFER_SIZE := by
  refine ⟨rfl, ?_⟩
  have hne : ∀ c ∈ osChunks BUFFER_SIZE ks pending, c ≠ [] :=
    fun c hc => (osChunks_bounds ks pending c hc).1
  rw [forward_data_clean dir _ [] hne]
  exact fun c hc => (osChunks_bounds ks pending c hc).2

/-- Witness for claim C8 at a concrete stream and schedule: the chunk `[5]`
is read and is within the buffer limit. -/
theorem claim_C8_witness :
    [5] ∈ (forward_data "Client -> Target" (fun _ => WriteOutcome.ok)
        ((osChunks BUFFER_SIZE [0] [5, 6]).map ReadResult.ok ++ [ReadResult.ok []])).chunks ∧
    ([5] : List Nat).length ≤ BUFFER_SIZE :=
  ⟨by decide, (claim_C8_chunk_limit "Client -> Target" [0] [5, 6]).2 [5] (by decide)⟩

/-- Counterexample to claim C4 as stated: the chunk `[81, 255]` has first
byte `Q` (0x51) but is not valid UTF-8, and `forward_data` emits no
database-query annotation for it — the annotation is not emitted regardless
of the rest of the chunk's contents. -/
theorem claim_C4_counterexample :
    [81, 255].head? = some ('Q'.toNat) ∧
    LogEvent.queryDetected "Client -> Target" ∉
      (forward_data "Client -> Target" (fun _ => WriteOutcome.ok)
        [ReadResult.ok [81, 255], ReadResult.ok []]).logs := by
  decide

/-- Claim C4 (amended): for every chunk that is valid UTF-8 and whose first
byte is `Q` (0x51), `forward_data` logs the database-query annotation for
that chunk, regardless of the rest of the chunk's contents and of the write
outcome. -/
theorem claim_C4_amended (dir : String) (writeAt : Nat → WriteOutcome)
    (rest : List Nat) (tail : List ReadResult) (cs : List Char)
    (hvalid : utf8Decode rest = some cs) :
    LogEvent.queryDetected dir ∈
      (forward_data dir writeAt (ReadResult.ok (81 :: rest) :: tail)).logs := by
  have hdec := utf8Decode_q rest cs hvalid
  have hclass : classifyChunk dir (81 :: rest) = [LogEvent.queryDetected dir] := by
    simp [classifyChunk, hdec, startsWithR]
  cases hw : writeAt 0 <;> simp [forward_data, hw, perChunkLogs, hclass]

/-- Witness for the amended claim C4 at the concrete chunk `QUERY`. -/
theorem claim_C4_witness :
    utf8Decode (asciiBytes "UERY") = some ("UERY".toList) ∧
    LogEvent.queryDetected "Client -> Target" ∈
      (forward_data "Client -> Target" (fun _ => WriteOutcome.ok)
        (ReadResult.ok (81 :: asciiBytes "UERY") :: [ReadResult.ok []])).logs :=
  ⟨by decide, claim_C4_amended "Client -> Target" (fun _ => WriteOutcome.ok)
    (asciiBytes "UERY") [ReadResult.ok []] ("UERY".toList) (by decide)⟩

/-- Claim C5: classification samples — on the chunk
`GET /health HTTP/1.1\r\n` `forward_data` emits the HTTP annotation with the
first line of the text, and on the chunk `[1, 2, 255]` no classification
annotation is emitted while the three bytes are still written unchanged. -/
theorem claim_C5_samples :
    (LogEvent.httpDetected "Client -> Target" ∈
      (forward_data "Client -> Target" (fun _ => WriteOutcome.ok)
        [ReadResult.ok (asciiBytes "GET /health HTTP/1.1\r\n"), ReadResult.ok []]).logs) ∧
    (LogEvent.httpStatusLine "Client -> Target" ("GET /health HTTP/1.1".toList) ∈
      (forward_data "Client -> Target" (fun _ => WriteOutcome.ok)
        [ReadResult.ok (asciiBytes "GET /health HTTP/1.1\r\n"), ReadResult.ok []]).logs) ∧
    ((forward_data "Client -> Target" (fun _ => WriteOutcome.ok)
        [ReadResult.ok [1, 2, 255], ReadResult.ok []]).logs.all fun ev => !(isClassLog ev)) ∧
    (forward_data "Client -> Target" (fun _ => WriteOutcome.ok)
        [ReadResult.ok [1, 2, 255], ReadResult.ok []]).written = [1, 2, 255] := by
  decide

/-- Claim C9: the classification of one chunk emits at most one annotation —
nothing, the HTTP annotation (detection line plus status line), or the query
annotation, never both kinds — and emits nothing at all when the chunk is
not valid UTF-8. -/
theorem claim_C9_exclusive (dir : String) (data : List Nat) :
    (classifyChunk dir data = [] ∨
     (∃ line, classifyChunk dir data =
        [LogEvent.httpDetected dir, LogEvent.httpStatusLine dir line]) ∨
     classifyChunk dir data = [LogEvent.queryDetected dir]) ∧
    (utf8Decode data = none → classifyChunk dir data = []) := by
  unfold classifyChunk
  cases hdec : utf8Decode data with
  | none => simp
  | some s =>
    refine ⟨?_, by simp⟩
    by_cases hhttp : (startsWithR s ['H', 'T', 'T', 'P', '/'] || startsWithR s ['G', 'E', 'T', ' ']
        || startsWithR s ['P', 'O', 'S', 'T', ' ']) = true
    · cases s with
      | nil => simp [startsWithR] at hhttp
      | cons c s' =>
        obtain ⟨l, hl⟩ := linesNext_cons c s'
        refine Or.inr (Or.inl ⟨l, ?_⟩)
        simp [hhttp, hl]
    · by_cases hq : startsWithR s ['Q'] = true
      · refine Or.inr (Or.inr ?_)
        simp [hhttp, hq]
      · refine Or.inl ?_
        simp [hhttp, hq]

/-- Witness for claim C9 at the invalid-UTF-8 chunk `[255]`: no annotation
is emitted. -/
theorem claim_C9_witness :
    utf8Decode [255] = none ∧ classifyChunk "Client -> Target" [255] = [] :=
  ⟨by decide, (claim_C9_exclusive "Client -> Target" [255]).2 (by decide)⟩
